import Mathlib

/-!
Shallow embedding of `api-scripts/create-or-update-dataset.py`, the script
that reconciles a Metadata Control File (MCF) against a CKAN catalog.

Python values reachable in this script (YAML scalars, lists, dicts) are
modelled by `Val`; Python exceptions by `PyErr`; fallible Python
expressions by `Except PyErr`.  Catalog interaction is modelled by a trace
of issued calls (`CkanCall`), with the responses of the external catalog
supplied as parameters of the driver.
-/

/-- A Python value as used by the script: strings, integers, lists and
string-keyed dicts (the shapes produced by `yaml.load` here). -/
inductive Val where
  | str : String → Val
  | num : Int → Val
  | list : List Val → Val
  | map : List (String × Val) → Val

/-- The Python exceptions that the modelled code can raise or catch. -/
inductive PyErr where
  | keyError
  | typeError
  | valueError
  | assertionError
  | indexError
  | attributeError
  | notFound
  | apiError (code : Nat)
deriving DecidableEq, Repr

/-- Python truthiness for `Val`: empty string, zero, empty list and empty
dict are falsy, everything else truthy. -/
def truthy : Val → Bool
  | .str s => !s.isEmpty
  | .num n => n != 0
  | .list xs => !xs.isEmpty
  | .map m => !m.isEmpty

/-- First-match lookup in a string-keyed dict (keys are unique in the
dicts produced by YAML loading). -/
def lookupMap : List (String × Val) → String → Option Val
  | [], _ => none
  | (k', v) :: rest, k => if k' = k then some v else lookupMap rest k

/-- `v[k]` for a string key `k`: KeyError on a dict without the key,
TypeError on a non-dict (Python: string/list/int indices must be
integers). -/
def pyIndex : Val → String → Except PyErr Val
  | .map m, k =>
    match lookupMap m k with
    | some v => .ok v
    | none => .error .keyError
  | _, _ => .error .typeError

/-- `v[i]` for an integer literal index: element of a list (IndexError
when out of range), one-character string of a string, KeyError on a dict
(no integer keys occur in our dicts), TypeError on an int. -/
def pyIndexNat : Val → Nat → Except PyErr Val
  | .list xs, i =>
    match xs.get? i with
    | some v => .ok v
    | none => .error .indexError
  | .str s, i =>
    match s.data.get? i with
    | some c => .ok (.str (String.singleton c))
    | none => .error .indexError
  | .map _, _ => .error .keyError
  | .num _, _ => .error .typeError

/-- `d.values()`: the values of a dict in insertion order; AttributeError
on anything that is not a dict. -/
def pyValues : Val → Except PyErr (List Val)
  | .map m => .ok (m.map Prod.snd)
  | _ => .error .attributeError

/-- A warning emitted by `_get_from_mcf`: the full dotted path and the
segment that was not found. -/
abbrev McfWarning := String × String

/-- Split a character list at every occurrence of `sep` (Python's
`str.split(sep)` for a one-character separator): always at least one
group, empty groups kept. -/
def splitAtChar (sep : Char) : List Char → List (List Char)
  | [] => [[]]
  | c :: rest =>
    let r := splitAtChar sep rest
    if c = sep then [] :: r
    else
      match r with
      | [] => [[c]]
      | g :: gs => (c :: g) :: gs

/-- Python's `dot_keys.split('.')`. -/
def pySplitDot (s : String) : List String :=
  (splitAtChar '.' s.data).map String.mk

/-- The `while True` loop of `_get_from_mcf`: pop the next key, index into
the current value; a KeyError ends the walk with the empty-string sentinel
and one warning, any other exception propagates.  An empty key deque would
make `popleft` raise IndexError (unreachable from `getFromMcf`). -/
def mcfTraverse (dotKeys : String) : Val → List String → Except PyErr (Val × List McfWarning)
  | _, [] => .error .indexError
  | v, k :: rest =>
    match pyIndex v k with
    | .error .keyError => .ok (.str "", [(dotKeys, k)])
    | .error e => .error e
    | .ok v' => if rest.isEmpty then .ok (v', []) else mcfTraverse dotKeys v' rest

/-- `_get_from_mcf(mcf, dot_keys)`: split the dotted path and walk the
document, returning the value found together with the warnings logged. -/
def getFromMcf (mcf : Val) (dotKeys : String) : Except PyErr (Val × List McfWarning) :=
  mcfTraverse dotKeys mcf (pySplitDot dotKeys)

/-- Specification-side traversal: the exact nested value at a list of
segments, defined only when every segment is present in a dict. -/
def navigate : Val → List String → Option Val
  | v, [] => some v
  | .map m, k :: rest =>
    match lookupMap m k with
    | some v' => navigate v' rest
    | none => none
  | _, _ :: _ => none

/-- One catalog license record as returned by `license_list`: an id, a
canonical title, a canonical url, and an optional list of legacy ids. -/
structure LicenseData where
  id : String
  title : String
  url : String
  legacy_ids : Option (List String)
deriving DecidableEq, Repr

/-- Python's `s.endswith('/')`: the last character is a slash. -/
def endsWithSlash (s : String) : Bool :=
  match s.data.getLast? with
  | some c => c = '/'
  | none => false

/-- Python's `s.strip()`: drop whitespace from both ends. -/
def pyStrip (s : String) : String :=
  String.mk (((s.data.dropWhile Char.isWhitespace).reverse.dropWhile
    Char.isWhitespace).reverse)

/-- Python's single-character `s.replace(' ', '-')` on one character. -/
def dashOfSpace (c : Char) : Char :=
  if c = ' ' then '-' else c

/-- `license_string.strip().replace(' ', '-').upper()`: strip, replace
each space by a dash, upper-case each character (ASCII, as `str.upper`
does on these inputs). -/
def sanitizeLicense (s : String) : String :=
  String.mk (((pyStrip s).data.map dashOfSpace).map Char.toUpper)

/-- Lookup in a Python dict built by successive assignments from an
association list: the last binding of a key wins. -/
def dictFind (pairs : List (String × String)) (k : String) : Option String :=
  (pairs.reverse.find? (fun p => p.1 == k)).map Prod.snd

/-- The `url_to_licenseid` index: one entry per known license, keyed by
the license's `url` field verbatim. -/
def urlToLicenseid (known : List LicenseData) : List (String × String) :=
  known.map (fun L => (L.url, L.id))

/-- The `string_to_licenseid` index: for each known license its `title`
verbatim, followed by each of its `legacy_ids` (when present), all mapping
to the license id. -/
def stringToLicenseid (known : List LicenseData) : List (String × String) :=
  (known.map (fun L =>
    (L.title, L.id) ::
      (match L.legacy_ids with
       | some gs => gs.map (fun g => (g, L.id))
       | none => []))).flatten

/-- `_find_license(license_string, license_url, known_licenses)`:
sanitize the title, append a trailing slash to the url when missing,
build the two indices, then look up in the url index when the
(normalized) url is non-empty and otherwise in the title index; a missing
key raises KeyError. -/
def findLicense (license_string license_url : String) (known : List LicenseData) :
    Except PyErr String :=
  let sanitized := sanitizeLicense license_string
  let url := if endsWithSlash license_url then license_url else license_url ++ "/"
  if url = "" then
    match dictFind (stringToLicenseid known) sanitized with
    | some i => .ok i
    | none => .error .keyError
  else
    match dictFind (urlToLicenseid known) url with
    | some i => .ok i
    | none => .error .keyError

/-- A character that survives no sanitization: a space (code 32) or an
ASCII lowercase letter (codes 97 to 122). -/
def unsanitaryChar (c : Char) : Prop :=
  c.toNat = 32 ∨ (97 ≤ c.toNat ∧ c.toNat ≤ 122)

instance (c : Char) : Decidable (unsanitaryChar c) := by
  unfold unsanitaryChar; infer_instance

/-- The CC-BY 4.0 catalog license record used in the concrete license
scenarios. -/
def ccbyLicense : LicenseData :=
  ⟨"cc-by-40", "CC-BY 4.0", "https://creativecommons.org/licenses/by/4.0/", none⟩

/-- Python's `int(v)`: an int unchanged, a string parsed (after stripping
whitespace) or ValueError, anything else TypeError. -/
def pyInt : Val → Except PyErr Int
  | .num n => .ok n
  | .str s =>
    match (pyStrip s).toInt? with
    | some n => .ok n
    | none => .error .valueError
  | _ => .error .typeError

/-- Python's 4-ary unpacking `a, b, c, d = v`: a list (or string, or the
keys of a dict) of exactly four elements succeeds, a wrong length raises
ValueError, an int raises TypeError. -/
def pyUnpack4 : Val → Except PyErr (Val × Val × Val × Val)
  | .list [a, b, c, d] => .ok (a, b, c, d)
  | .list _ => .error .valueError
  | .str s =>
    match s.data with
    | [a, b, c, d] =>
      .ok (.str (String.singleton a), .str (String.singleton b),
           .str (String.singleton c), .str (String.singleton d))
    | _ => .error .valueError
  | .map m =>
    match m with
    | [a, b, c, d] => .ok (.str a.1, .str b.1, .str c.1, .str d.1)
    | _ => .error .valueError
  | .num _ => .error .typeError

/-- The closed five-vertex ring that `_get_wgs84_bbox` returns for a bbox
`(minx, miny, maxx, maxy)`. -/
def bboxRing (minx miny maxx maxy : Val) : Val :=
  .list [.list [.list [minx, maxy], .list [minx, miny], .list [maxx, miny],
                .list [maxx, maxy], .list [minx, maxy]]]

/-- `_get_wgs84_bbox(mcf)`: take the first spatial extent, assert that
`int(extent['crs'])` is 4326 (AssertionError otherwise), unpack the bbox
and build the closed ring. -/
def getWgs84Bbox (mcf : Val) : Except PyErr Val := do
  let sp ← getFromMcf mcf "identification.extents.spatial"
  let extent ← pyIndexNat sp.1 0
  let crsv ← pyIndex extent "crs"
  let crs ← pyInt crsv
  if crs = 4326 then do
    let bboxv ← pyIndex extent "bbox"
    let (minx, miny, maxx, maxy) ← pyUnpack4 bboxv
    return bboxRing minx miny maxx maxy
  else
    .error .assertionError

/-- `_create_tags_dicts(mcf)`: one `{'name': name}` dict per element of
`identification.keywords`; iterating a string yields its characters, a
dict its keys, an int raises TypeError. -/
def createTagsDicts (mcf : Val) : Except PyErr (List Val) := do
  let tags ← getFromMcf mcf "identification.keywords"
  match tags.1 with
  | .list xs => return xs.map (fun v => Val.map [("name", v)])
  | .str s => return s.data.map (fun c => Val.map [("name", Val.str (String.singleton c))])
  | .map m => return m.map (fun p => Val.map [("name", Val.str p.1)])
  | .num _ => .error .typeError

/-! SHA-256 over byte lists (each byte a `Nat < 256`), modelling
`hashlib.sha256` with its incremental `update`/`hexdigest` interface as
used by `_hash_file_sha256`. -/

/-- Truncation to a 32-bit word. -/
def w32 (n : Nat) : Nat := n % 4294967296

/-- Right rotation of a 32-bit word by `n` bits. -/
def rotr32 (n x : Nat) : Nat := w32 ((x >>> n) ||| (x <<< (32 - n)))

/-- SHA-256 small sigma 0. -/
def ssig0 (x : Nat) : Nat := (rotr32 7 x) ^^^ (rotr32 18 x) ^^^ (x >>> 3)

/-- SHA-256 small sigma 1. -/
def ssig1 (x : Nat) : Nat := (rotr32 17 x) ^^^ (rotr32 19 x) ^^^ (x >>> 10)

/-- SHA-256 big sigma 0. -/
def bsig0 (x : Nat) : Nat := (rotr32 2 x) ^^^ (rotr32 13 x) ^^^ (rotr32 22 x)

/-- SHA-256 big sigma 1. -/
def bsig1 (x : Nat) : Nat := (rotr32 6 x) ^^^ (rotr32 11 x) ^^^ (rotr32 25 x)

/-- SHA-256 choice function (with 32-bit complement). -/
def sha2ch (x y z : Nat) : Nat := (x &&& y) ^^^ ((x ^^^ 4294967295) &&& z)

/-- SHA-256 majority function. -/
def sha2maj (x y z : Nat) : Nat := (x &&& y) ^^^ (x &&& z) ^^^ (y &&& z)

/-- The 64 SHA-256 round constants (written in decimal). -/
def sha2K : List Nat :=
  [1116352408, 1899447441, 3049323471, 3921009573, 961987163,
   1508970993, 2453635748, 2870763221, 3624381080, 310598401,
   607225278, 1426881987, 1925078388, 2162078206, 2614888103,
   3248222580, 3835390401, 4022224774, 264347078, 604807628,
   770255983, 1249150122, 1555081692, 1996064986, 2554220882,
   2821834349, 2952996808, 3210313671, 3336571891, 3584528711,
   113926993, 338241895, 666307205, 773529912, 1294757372,
   1396182291, 1695183700, 1986661051, 2177026350, 2456956037,
   2730485921, 2820302411, 3259730800, 3345764771, 3516065817,
   3600352804, 4094571909, 275423344, 430227734, 506948616,
   659060556, 883997877, 958139571, 1322822218, 1537002063,
   1747873779, 1955562222, 2024104815, 2227730452, 2361852424,
   2428436474, 2756734187, 3204031479, 3329325298]

/-- The SHA-256 initial hash value (written in decimal). -/
def sha2H0 : List Nat :=
  [1779033703, 3144134277, 1013904242, 2773480762,
   1359893119, 2600822924, 528734635, 1541459225]

/-- Group a 64-byte block into 16 big-endian 32-bit words. -/
def bytesToWords : List Nat → List Nat
  | b0 :: b1 :: b2 :: b3 :: rest =>
    (((b0 * 256 + b1) * 256 + b2) * 256 + b3) :: bytesToWords rest
  | _ => []

/-- Extend the 16-word message schedule by `k` further words. -/
def extendW (ws : List Nat) : Nat → List Nat
  | 0 => ws
  | k + 1 =>
    let n := ws.length
    extendW (ws ++ [w32 (ssig1 (ws.getD (n - 2) 0) + ws.getD (n - 7) 0 +
                         ssig0 (ws.getD (n - 15) 0) + ws.getD (n - 16) 0)]) k

/-- One SHA-256 round on the eight working registers. -/
def sha2Round (regs : List Nat) (kw : Nat × Nat) : List Nat :=
  match regs with
  | [a, b, c, d, e, f, g, hh] =>
    let t1 := w32 (hh + bsig1 e + sha2ch e f g + kw.1 + kw.2)
    let t2 := w32 (bsig0 a + sha2maj a b c)
    [w32 (t1 + t2), a, b, c, w32 (d + t1), e, f, g]
  | r => r

/-- The SHA-256 compression function on one 64-byte block. -/
def sha2Compress (hs : List Nat) (block : List Nat) : List Nat :=
  let ws := extendW (bytesToWords block) 48
  let regs := (ws.zip sha2K).foldl sha2Round hs
  (hs.zip regs).map (fun p => w32 (p.1 + p.2))

/-- Greedily compress every full 64-byte block of `bs`, returning the new
hash value and the remaining (fewer than 64) bytes. -/
def processBlocks (hs : List Nat) (bs : List Nat) : List Nat × List Nat :=
  if h : 64 ≤ bs.length then
    processBlocks (sha2Compress hs (bs.take 64)) (bs.drop 64)
  else
    (hs, bs)
termination_by bs.length
decreasing_by simp only [List.length_drop]; omega

/-- The incremental state of a `hashlib.sha256()` object: current hash
value, buffered unprocessed bytes, and total length fed so far. -/
structure Sha256State where
  hs : List Nat
  pending : List Nat
  totalLen : Nat
deriving Repr

/-- `hashlib.sha256()`. -/
def sha256Init : Sha256State := ⟨sha2H0, [], 0⟩

/-- `h.update(bs)`: append to the buffer and compress full blocks. -/
def sha256Update (st : Sha256State) (bs : List Nat) : Sha256State :=
  let pr := processBlocks st.hs (st.pending ++ bs)
  ⟨pr.1, pr.2, st.totalLen + bs.length⟩

/-- The big-endian 8-byte encoding of the bit length. -/
def lengthBytes (n : Nat) : List Nat :=
  [n / 2 ^ 56 % 256, n / 2 ^ 48 % 256, n / 2 ^ 40 % 256, n / 2 ^ 32 % 256,
   n / 2 ^ 24 % 256, n / 2 ^ 16 % 256, n / 2 ^ 8 % 256, n % 256]

/-- The SHA-256 padding for a message of `len` bytes: `0x80`, zeros up to
56 mod 64, then the 64-bit big-endian bit length. -/
def padBytes (len : Nat) : List Nat :=
  0x80 :: List.replicate ((119 - len % 64) % 64) 0 ++ lengthBytes (8 * len)

/-- A 32-bit word as four big-endian bytes. -/
def wordBytes (w : Nat) : List Nat :=
  [w / 2 ^ 24 % 256, w / 2 ^ 16 % 256, w / 2 ^ 8 % 256, w % 256]

/-- One lowercase hexadecimal digit. -/
def hexChar (n : Nat) : Char :=
  if n < 10 then Char.ofNat (48 + n) else Char.ofNat (87 + n)

/-- A byte as two lowercase hexadecimal digits. -/
def byteHex (b : Nat) : List Char := [hexChar (b / 16), hexChar (b % 16)]

/-- `h.hexdigest()`: pad with the total length, compress the rest, and
print the eight hash words as 64 lowercase hex digits. -/
def sha256Hexdigest (st : Sha256State) : String :=
  let pr := processBlocks st.hs (st.pending ++ padBytes st.totalLen)
  String.mk (((pr.1.map wordBytes).flatten.map byteHex).flatten)

/-- SHA-256 of a whole byte string at once, as a lowercase hex digest. -/
def sha256Hex (msg : List Nat) : String :=
  sha256Hexdigest (sha256Update sha256Init msg)

/-- The chunks produced by the `f.read(2**16)` loop: successive 64 KiB
slices of the file, the last one possibly shorter. -/
def fileChunks (bs : List Nat) : List (List Nat) :=
  if h : bs = [] then []
  else bs.take 65536 :: fileChunks (bs.drop 65536)
termination_by bs.length
decreasing_by
  simp only [List.length_drop]
  have : 0 < bs.length := List.length_pos.mpr h
  omega

/-- `_hash_file_sha256(filepath)`: feed the file to a fresh SHA-256
accumulator 64 KiB at a time and return the lowercase hex digest. -/
def hashFileSha256 (file : List Nat) : String :=
  sha256Hexdigest (List.foldl sha256Update sha256Init (fileChunks file))

/-! The reconciliation driver (`main`).  The external catalog is a
collaborator: the outcome of `package_show` and the record returned by
`package_create` are parameters, and the driver's effect on the catalog is
recorded as a trace of issued calls. -/

/-- The catalog record returned by `package_show` or `package_create`:
the fields the driver reads. -/
structure PkgDict where
  id : String
  resources : List Val

/-- A call issued against the CKAN catalog, with the arguments the claims
are about. -/
inductive CkanCall where
  | organizationList
  | licenseList
  | packageShow (name : Val)
  | packageCreate (name title author authorEmail notes url version : Val)
      (tags : List Val) (spatial : Val)
  | resourceCreate (packageId : String) (hash : String) (size : Nat)

/-- The value (discarding warnings) of `_get_from_mcf`. -/
def getVal (mcf : Val) (dotKeys : String) : Except PyErr Val :=
  (getFromMcf mcf dotKeys).map Prod.fst

/-- A `Val` used where Python calls a `str` method on it (`.strip()`,
`.endswith(...)`): non-strings raise AttributeError. -/
def asPyStr : Val → Except PyErr String
  | .str s => .ok s
  | _ => .error .attributeError

/-- The `_find_license` call of `main`: extract the license name and url
and resolve them against the known licenses (the resolved id is
discarded; only failure matters). -/
def resolveDeclaredLicense (mcf : Val) (licenses : List LicenseData) : Except PyErr Unit := do
  let nm ← getVal mcf "identification.license.name"
  let u ← getVal mcf "identification.license.url"
  let nms ← asPyStr nm
  let us ← asPyStr u
  let _ ← findLicense nms us licenses
  return ()

/-- The license block of `main`: when `identification.license` is truthy,
resolve the declared license. -/
def licensePhase (mcf : Val) (licenses : List LicenseData) : Except PyErr Unit := do
  let lic ← getVal mcf "identification.license"
  if truthy lic then resolveDeclaredLicense mcf licenses
  else return ()

/-- The author-key loop of the CREATE branch: try `individualname` then
`organization`; after the loop `author_key` is the last key tried unless a
truthy value broke out earlier.  A missing key raises KeyError while the
loop runs. -/
def chooseAuthorKey (fci : Val) : Except PyErr String := do
  let v ← pyIndex fci "individualname"
  if truthy v then
    return "individualname"
  else do
    let _ ← pyIndex fci "organization"
    return "organization"

/-- Evaluation of the `package_create` arguments in the CREATE branch:
the first contact entry, the author fields, the extracted text fields, the
tags and the spatial ring.  Any failure aborts before the call is
issued. -/
def buildPackageCreate (mcf : Val) (name title : Val) : Except PyErr CkanCall := do
  let contact ← pyIndex mcf "contact"
  let vals ← pyValues contact
  let fci ←
    match vals.get? 0 with
    | some v => Except.ok v
    | none => Except.error PyErr.indexError
  let akey ← chooseAuthorKey fci
  let author ← pyIndex fci akey
  let email ← pyIndex fci "email"
  let notes ← getVal mcf "identification.abstract"
  let urlv ← getVal mcf "identification.url"
  let version ← getVal mcf "identification.edition"
  let tags ← createTagsDicts mcf
  let ring ← getWgs84Bbox mcf
  return CkanCall.packageCreate name title author email notes urlv version tags ring

/-- The resource check: attach the MCF file as a resource exactly when the
record's resource list is empty. -/
def resourcePhase (pkg : PkgDict) (file : List Nat) : List CkanCall :=
  match pkg.resources with
  | [] => [CkanCall.resourceCreate pkg.id ("sha256:" ++ hashFileSha256 file) file.length]
  | _ :: _ => []

/-- The body of the driver's `try:` block, from `package_show` onwards:
a NotFound lookup failure enters the CREATE branch, any other lookup
failure propagates; then the resource check runs on the found or created
record.  Returns the calls issued and the outcome. -/
def tryBody (mcf : Val) (lookupRes : Except PyErr PkgDict) (createdPkg : PkgDict)
    (title name : Val) (file : List Nat) : List CkanCall × Except PyErr Unit :=
  match lookupRes with
  | .ok pkg => ([CkanCall.packageShow name] ++ resourcePhase pkg file, .ok ())
  | .error .notFound =>
    match buildPackageCreate mcf name title with
    | .error e => ([CkanCall.packageShow name], .error e)
    | .ok call =>
      ([CkanCall.packageShow name, call] ++ resourcePhase createdPkg file, .ok ())
  | .error e => ([CkanCall.packageShow name], .error e)

/-- `main()` after loading the MCF: list the organization, fetch the
licenses, run the license block, extract title and identifier, then run
the `try:` block, whose AttributeError (and only that) is caught by the
`except AttributeError:` diagnostic handler.  Returns the trace of catalog
calls and the outcome. -/
def runMain (mcf : Val) (licenses : List LicenseData) (lookupRes : Except PyErr PkgDict)
    (createdPkg : PkgDict) (file : List Nat) : List CkanCall × Except PyErr Unit :=
  let calls0 := [CkanCall.organizationList, CkanCall.licenseList]
  match licensePhase mcf licenses with
  | .error e => (calls0, .error e)
  | .ok _ =>
    match getVal mcf "identification.title" with
    | .error e => (calls0, .error e)
    | .ok title =>
      match getVal mcf "metadata.identifier" with
      | .error e => (calls0, .error e)
      | .ok name =>
        let body := tryBody mcf lookupRes createdPkg title name file
        match body.2 with
        | .error .attributeError => (calls0 ++ body.1, .ok ())
        | o => (calls0 ++ body.1, o)

/-- A well-formed MCF document with identifier `my-dataset`, no license
block, one contact with a non-empty `individualname`, the given keyword
list, and a WGS84 extent with bbox `(10, 20, 30, 40)`. -/
def scenarioDoc (keywords : List Val) : Val :=
  Val.map
    [("metadata", Val.map [("identifier", Val.str "my-dataset")]),
     ("identification", Val.map
       [("title", Val.str "My Dataset"),
        ("abstract", Val.str "An abstract."),
        ("url", Val.str "https://example.com/data"),
        ("edition", Val.str "1.0"),
        ("keywords", Val.list keywords),
        ("extents", Val.map
          [("spatial", Val.list
            [Val.map [("crs", Val.num 4326),
                      ("bbox", Val.list [Val.num 10, Val.num 20, Val.num 30, Val.num 40])]])])]),
     ("contact", Val.map
       [("pointOfContact", Val.map
         [("individualname", Val.str "Jane Doe"),
          ("organization", Val.str ""),
          ("email", Val.str "jane@example.com")])])]

/-- The trace of catalog calls of a run (first component of `runMain`). -/
def mainTrace (mcf : Val) (licenses : List LicenseData) (lookupRes : Except PyErr PkgDict)
    (createdPkg : PkgDict) (file : List Nat) : List CkanCall :=
  (runMain mcf licenses lookupRes createdPkg file).1

/-- Does a call mutate the catalog (create a dataset or a resource)? -/
def isMutation : CkanCall → Bool
  | .packageCreate _ _ _ _ _ _ _ _ _ => true
  | .resourceCreate _ _ _ => true
  | _ => false

/-! Helper lemmas. -/

theorem splitAtChar_ne_nil (sep : Char) (cs : List Char) : splitAtChar sep cs ≠ [] := by
  induction cs with
  | nil => simp [splitAtChar]
  | cons c rest ih =>
    simp only [splitAtChar]
    split
    · simp
    · cases h : splitAtChar sep rest with
      | nil => simp
      | cons g gs => simp

theorem pySplitDot_ne_nil (s : String) : pySplitDot s ≠ [] := by
  unfold pySplitDot
  intro h
  exact splitAtChar_ne_nil '.' s.data (by simpa using h)

theorem mcfTraverse_of_navigate (dk : String) :
    ∀ (ks : List String) (doc v : Val), ks ≠ [] → navigate doc ks = some v →
      mcfTraverse dk doc ks = .ok (v, []) := by
  intro ks
  induction ks with
  | nil => intro doc v h _; exact absurd rfl h
  | cons k rest ih =>
    intro doc v _ hnav
    cases doc with
    | map m =>
      simp only [navigate] at hnav
      cases hfind : lookupMap m k with
      | none => rw [hfind] at hnav; cases hnav
      | some v' =>
        rw [hfind] at hnav
        simp only [mcfTraverse, pyIndex, hfind]
        cases rest with
        | nil =>
          simp only [navigate, Option.some.injEq] at hnav
          subst hnav
          simp
        | cons k2 r2 =>
          simpa using ih v' v (by simp) hnav
    | str s => simp [navigate] at hnav
    | num n => simp [navigate] at hnav
    | list xs => simp [navigate] at hnav

theorem mcfTraverse_missing (dk : String) :
    ∀ (p : List String) (doc : Val) (k : String) (rest : List String)
      (m : List (String × Val)),
      navigate doc p = some (.map m) → lookupMap m k = none →
      mcfTraverse dk doc (p ++ k :: rest) = .ok (.str "", [(dk, k)]) := by
  intro p
  induction p with
  | nil =>
    intro doc k rest m hnav hmiss
    simp only [navigate, Option.some.injEq] at hnav
    subst hnav
    simp [mcfTraverse, pyIndex, hmiss]
  | cons k0 p' ih =>
    intro doc k rest m hnav hmiss
    cases doc with
    | map m0 =>
      simp only [navigate] at hnav
      cases hfind : lookupMap m0 k0 with
      | none => rw [hfind] at hnav; cases hnav
      | some v' =>
        rw [hfind] at hnav
        simp only [List.cons_append, mcfTraverse, pyIndex, hfind, List.append_eq]
        have hne : (p' ++ k :: rest).isEmpty = false := by simp
        rw [hne]
        simpa using ih v' k rest m hnav hmiss
    | str s => simp [navigate] at hnav
    | num n => simp [navigate] at hnav
    | list xs => simp [navigate] at hnav

/-- C5: Field Extractor contract of `_get_from_mcf`: when every segment of
the dotted path is present (each prefix reaches a dict containing the next
segment), the exact nested value is returned with no warning; when a
prefix reaches a dict that lacks the next segment, the call returns the
empty-string sentinel together with exactly one warning naming the full
dotted path and the missing segment. -/
theorem getFromMcf_contract (doc : Val) (path : String) :
    (∀ v : Val, navigate doc (pySplitDot path) = some v →
       getFromMcf doc path = .ok (v, [])) ∧
    (∀ (p : List String) (k : String) (rest : List String) (m : List (String × Val)),
       pySplitDot path = p ++ k :: rest → navigate doc p = some (.map m) →
       lookupMap m k = none →
       getFromMcf doc path = .ok (.str "", [(path, k)])) := by
  constructor
  · intro v hnav
    exact mcfTraverse_of_navigate path (pySplitDot path) doc v (pySplitDot_ne_nil path) hnav
  · intro p k rest m hsplit hnav hmiss
    unfold getFromMcf
    rw [hsplit]
    exact mcfTraverse_missing path p doc k rest m hnav hmiss

/-- Witness for the C5 theorem: a present path returns the nested value,
a path with a missing second segment returns the sentinel and the one
warning. -/
theorem getFromMcf_contract_witness :
    getFromMcf (Val.map [("identification", Val.map [("title", Val.str "T")])])
        "identification.title" = .ok (Val.str "T", []) ∧
    getFromMcf (Val.map [("identification", Val.map [("title", Val.str "T")])])
        "identification.abstract"
      = .ok (.str "", [("identification.abstract", "abstract")]) :=
  ⟨(getFromMcf_contract (Val.map [("identification", Val.map [("title", Val.str "T")])])
      "identification.title").1 (Val.str "T") rfl,
   (getFromMcf_contract (Val.map [("identification", Val.map [("title", Val.str "T")])])
      "identification.abstract").2 ["identification"] "abstract" []
      [("title", Val.str "T")] rfl rfl rfl⟩

/-- C10: `_get_from_mcf` catches only KeyError, so when an intermediate
segment is present but holds a non-mapping value (here the string
`hello`), indexing it with the next segment raises TypeError, which
propagates instead of producing the sentinel and a warning. -/
theorem getFromMcf_typeError_propagates :
    getFromMcf (Val.map [("a", Val.str "hello")]) "a.b" = .error .typeError := rfl

/-- C6: Geometry Builder contract of `_get_wgs84_bbox`: when the first
spatial extent has crs 4326 and bbox `(minx, miny, maxx, maxy)`, the
result is exactly the single closed five-vertex ring with identical first
and last vertices; when the crs converts to any integer other than 4326,
the call fails with the assertion error instead of returning a ring. -/
theorem getWgs84Bbox_contract (mcf ext : Val) (restE : List Val) (w : List McfWarning)
    (crsv : Val)
    (hsp : getFromMcf mcf "identification.extents.spatial" = .ok (Val.list (ext :: restE), w))
    (hcrs : pyIndex ext "crs" = .ok crsv) :
    (∀ minx miny maxx maxy : Val,
       pyInt crsv = .ok 4326 →
       pyIndex ext "bbox" = .ok (Val.list [minx, miny, maxx, maxy]) →
       getWgs84Bbox mcf = .ok (bboxRing minx miny maxx maxy)) ∧
    (∀ c : Int, pyInt crsv = .ok c → c ≠ 4326 →
       getWgs84Bbox mcf = .error .assertionError) := by
  constructor
  · intro minx miny maxx maxy h4326 hbbox
    simp only [getWgs84Bbox, bind, Except.bind, hsp, pyIndexNat, List.get?, hcrs, h4326,
               hbbox, pyUnpack4, if_pos, pure, Except.pure]
  · intro c hc hne
    simp only [getWgs84Bbox, bind, Except.bind, hsp, pyIndexNat, List.get?, hcrs, hc]
    rw [if_neg hne]

/-- Witness for the C6 theorem: the scenario document (crs 4326, bbox
`(10, 20, 30, 40)`) yields the closed ring, and the same extent with crs
3857 fails with the assertion error. -/
theorem getWgs84Bbox_contract_witness :
    getWgs84Bbox (scenarioDoc []) =
      .ok (bboxRing (Val.num 10) (Val.num 20) (Val.num 30) (Val.num 40)) ∧
    getWgs84Bbox (Val.map [("identification", Val.map [("extents", Val.map
        [("spatial", Val.list [Val.map [("crs", Val.num 3857),
          ("bbox", Val.list [Val.num 10, Val.num 20, Val.num 30, Val.num 40])]])])])])
      = .error .assertionError :=
  ⟨(getWgs84Bbox_contract (scenarioDoc [])
      (Val.map [("crs", Val.num 4326),
        ("bbox", Val.list [Val.num 10, Val.num 20, Val.num 30, Val.num 40])]) [] []
      (Val.num 4326) rfl rfl).1 (Val.num 10) (Val.num 20) (Val.num 30) (Val.num 40) rfl rfl,
   (getWgs84Bbox_contract (Val.map [("identification", Val.map [("extents", Val.map
        [("spatial", Val.list [Val.map [("crs", Val.num 3857),
          ("bbox", Val.list [Val.num 10, Val.num 20, Val.num 30, Val.num 40])]])])])])
      (Val.map [("crs", Val.num 3857),
        ("bbox", Val.list [Val.num 10, Val.num 20, Val.num 30, Val.num 40])]) [] []
      (Val.num 3857) rfl rfl).2 3857 rfl (by decide)⟩

/-- C2: Resource-attachment idempotence boundary of the driver.  For a
document whose identifier is not in the catalog (lookup raises NotFound),
exactly one `package_create` is issued, with one `{'name': k}` tag per
listed keyword, followed by exactly one `resource_create` (the created
record has no resources).  For a lookup that finds a record, the resource
call is issued exactly when the found record's resource list is empty; in
particular a record with an existing resource gets zero create-dataset
and zero create-resource calls. -/
theorem reconciliationResourceBoundary (keywords : List Val) (licenses : List LicenseData)
    (i j : String) (rs : List Val) (r : Val) (rs' : List Val) (file : List Nat) :
    runMain (scenarioDoc keywords) licenses (.error .notFound) ⟨i, []⟩ file =
      ([CkanCall.organizationList, CkanCall.licenseList,
        CkanCall.packageShow (Val.str "my-dataset"),
        CkanCall.packageCreate (Val.str "my-dataset") (Val.str "My Dataset")
          (Val.str "Jane Doe") (Val.str "jane@example.com") (Val.str "An abstract.")
          (Val.str "https://example.com/data") (Val.str "1.0")
          (keywords.map (fun v => Val.map [("name", v)]))
          (bboxRing (Val.num 10) (Val.num 20) (Val.num 30) (Val.num 40)),
        CkanCall.resourceCreate i ("sha256:" ++ hashFileSha256 file) file.length],
       .ok ()) ∧
    runMain (scenarioDoc keywords) licenses (.ok ⟨j, rs⟩) ⟨i, []⟩ file =
      ([CkanCall.organizationList, CkanCall.licenseList,
        CkanCall.packageShow (Val.str "my-dataset")] ++ resourcePhase ⟨j, rs⟩ file,
       .ok ()) ∧
    runMain (scenarioDoc keywords) licenses (.ok ⟨j, r :: rs'⟩) ⟨i, []⟩ file =
      ([CkanCall.organizationList, CkanCall.licenseList,
        CkanCall.packageShow (Val.str "my-dataset")], .ok ()) :=
  ⟨rfl, rfl, rfl⟩

/-- C3: License-failure atomicity.  When the document declares a license
(`identification.license` is truthy) and `_find_license` fails, the run
stops with that error right after the license-list fetch: no dataset
lookup, no create-dataset and no create-resource call is issued, whatever
the catalog would have answered. -/
theorem licenseFailureAtomicity (mcf : Val) (licenses : List LicenseData)
    (lookupRes : Except PyErr PkgDict) (createdPkg : PkgDict) (file : List Nat)
    (lic : Val) (w : List McfWarning) (e : PyErr)
    (hdecl : getFromMcf mcf "identification.license" = .ok (lic, w))
    (htruthy : truthy lic = true)
    (hfail : resolveDeclaredLicense mcf licenses = .error e) :
    runMain mcf licenses lookupRes createdPkg file =
      ([CkanCall.organizationList, CkanCall.licenseList], .error e) := by
  have hlp : licensePhase mcf licenses = .error e := by
    simp only [licensePhase, bind, Except.bind, getVal, hdecl, Except.map, htruthy,
               if_pos, hfail]
  simp only [runMain, hlp]

/-- Witness for the C3 theorem: a declared license `{name: Whatever,
url: ""}` against an empty known-licenses list fails to resolve, and the
whole run aborts with that KeyError after only the organization-list and
license-list calls. -/
theorem licenseFailureAtomicity_witness :
    runMain (Val.map [("identification", Val.map [("license",
        Val.map [("name", Val.str "Whatever"), ("url", Val.str "")])])])
      [] (.ok ⟨"p", []⟩) ⟨"q", []⟩ [] =
      ([CkanCall.organizationList, CkanCall.licenseList], .error .keyError) :=
  licenseFailureAtomicity
    (Val.map [("identification", Val.map [("license",
      Val.map [("name", Val.str "Whatever"), ("url", Val.str "")])])])
    [] (.ok ⟨"p", []⟩) ⟨"q", []⟩ []
    (Val.map [("name", Val.str "Whatever"), ("url", Val.str "")]) [] .keyError
    rfl rfl rfl

/-- C4 counterexample: not every non-NotFound lookup failure propagates.
An AttributeError raised during the dataset lookup is caught by the
driver's `except AttributeError:` diagnostic handler: the run completes
with outcome ok and no create call, contradicting the claim that every
failure other than NotFound propagates to the caller. -/
theorem lookupAttributeErrorSwallowed :
    runMain (scenarioDoc []) [] (.error .attributeError) ⟨"p", []⟩ [] =
      ([CkanCall.organizationList, CkanCall.licenseList,
        CkanCall.packageShow (Val.str "my-dataset")], .ok ()) := rfl

/-- C4 amended: a NotFound error from the dataset lookup (and only a
NotFound error) triggers the CREATE branch; an AttributeError is caught by
the diagnostic handler and the run completes without any create call;
every other failure raised during lookup propagates to the caller
unchanged. -/
theorem lookupFailureBoundary (mcf : Val) (licenses : List LicenseData)
    (createdPkg : PkgDict) (file : List Nat) (t n : Val) (e : PyErr)
    (hlic : licensePhase mcf licenses = .ok ())
    (ht : getVal mcf "identification.title" = .ok t)
    (hn : getVal mcf "metadata.identifier" = .ok n) :
    (e ≠ .notFound → e ≠ .attributeError →
       runMain mcf licenses (.error e) createdPkg file =
         ([CkanCall.organizationList, CkanCall.licenseList, CkanCall.packageShow n],
          .error e)) ∧
    (runMain mcf licenses (.error .attributeError) createdPkg file =
       ([CkanCall.organizationList, CkanCall.licenseList, CkanCall.packageShow n],
        .ok ())) ∧
    (∀ call : CkanCall, buildPackageCreate mcf n t = .ok call →
       runMain mcf licenses (.error .notFound) createdPkg file =
         ([CkanCall.organizationList, CkanCall.licenseList, CkanCall.packageShow n, call]
           ++ resourcePhase createdPkg file, .ok ())) := by
  refine ⟨?_, ?_, ?_⟩
  · intro hne hna
    cases e
    case notFound => exact absurd rfl hne
    case attributeError => exact absurd rfl hna
    all_goals simp [runMain, hlic, ht, hn, tryBody]
  · simp [runMain, hlic, ht, hn, tryBody]
  · intro call hcall
    simp [runMain, hlic, ht, hn, tryBody, hcall]

/-- Witness for the amended C4 theorem: a non-NotFound, non-AttributeError
API failure during lookup propagates unchanged, with no create call. -/
theorem lookupFailureBoundary_witness :
    runMain (scenarioDoc []) [] (.error (.apiError 500)) ⟨"p", []⟩ [] =
      ([CkanCall.organizationList, CkanCall.licenseList,
        CkanCall.packageShow (Val.str "my-dataset")], .error (.apiError 500)) :=
  (lookupFailureBoundary (scenarioDoc []) [] ⟨"p", []⟩ [] (Val.str "My Dataset")
    (Val.str "my-dataset") (.apiError 500) rfl rfl rfl).1 (by decide) (by decide)

theorem toNat_ofNat_valid (n : Nat) (h : n.isValidChar) : (Char.ofNat n).toNat = n := by
  unfold Char.ofNat
  rw [dif_pos h]
  rfl

theorem char_eq_space_of_toNat (c : Char) (h : c.toNat = 32) : c = ' ' := by
  apply Char.ext
  apply UInt32.toNat.inj
  exact h

theorem dashOfSpace_toNat_ne_space (c : Char) : (dashOfSpace c).toNat ≠ 32 := by
  unfold dashOfSpace
  split
  · decide
  · rename_i hne
    intro h32
    exact hne (char_eq_space_of_toNat c h32)

theorem toUpper_toNat (c : Char) :
    (Char.toUpper c).toNat =
      if 97 ≤ c.toNat ∧ c.toNat ≤ 122 then c.toNat - 32 else c.toNat := by
  unfold Char.toUpper
  by_cases h : 97 ≤ c.toNat ∧ c.toNat ≤ 122
  · rw [if_pos h]
    rw [if_pos h]
    exact toNat_ofNat_valid (c.toNat - 32) (Or.inl (by omega))
  · rw [if_neg h]
    rw [if_neg h]

theorem sanitizeLicense_no_unsanitary (q : String) :
    ∀ c ∈ (sanitizeLicense q).data, ¬ unsanitaryChar c := by
  intro c hc
  have hc' : c ∈ ((pyStrip q).data.map dashOfSpace).map Char.toUpper := hc
  rw [List.mem_map] at hc'
  obtain ⟨d, hd, rfl⟩ := hc'
  rw [List.mem_map] at hd
  obtain ⟨e, -, rfl⟩ := hd
  have h1 := dashOfSpace_toNat_ne_space e
  unfold unsanitaryChar
  rw [toUpper_toNat]
  by_cases h : 97 ≤ (dashOfSpace e).toNat ∧ (dashOfSpace e).toNat ≤ 122
  · rw [if_pos h]
    omega
  · rw [if_neg h]
    omega

theorem dictFind_mem (pairs : List (String × String)) (k r : String)
    (h : dictFind pairs k = some r) : (k, r) ∈ pairs := by
  unfold dictFind at h
  cases hf : pairs.reverse.find? (fun p => p.1 == k) with
  | none => rw [hf] at h; cases h
  | some p =>
    rw [hf] at h
    have hval : p.2 = r := Option.some.inj h
    have hm := List.mem_of_find?_eq_some hf
    have hp := List.find?_some hf
    rw [List.mem_reverse] at hm
    have hk : p.1 = k := by simpa using hp
    cases p with
    | mk p1 p2 =>
      rw [show p1 = k from hk, show p2 = r from hval] at hm
      exact hm

theorem stringToLicenseid_mem (known : List LicenseData) (k r : String)
    (h : (k, r) ∈ stringToLicenseid known) :
    ∃ L ∈ known, r = L.id ∧ (k = L.title ∨ k ∈ L.legacy_ids.getD []) := by
  unfold stringToLicenseid at h
  rw [List.mem_flatten] at h
  obtain ⟨l, hl, hkl⟩ := h
  rw [List.mem_map] at hl
  obtain ⟨L, hL, rfl⟩ := hl
  refine ⟨L, hL, ?_⟩
  rcases List.mem_cons.mp hkl with h1 | h2
  · have := Prod.mk.injEq .. ▸ h1
    refine ⟨by simp_all, Or.inl (by simp_all)⟩
  · cases hleg : L.legacy_ids with
    | none => rw [hleg] at h2; cases h2
    | some gs =>
      rw [hleg] at h2
      rw [List.mem_map] at h2
      obtain ⟨g, hg, hgr⟩ := h2
      have hk : g = k := congrArg Prod.fst hgr
      have hr : L.id = r := congrArg Prod.snd hgr
      subst hk
      exact ⟨hr.symm, Or.inr (by simp [hleg, hg])⟩

theorem urlToLicenseid_mem (known : List LicenseData) (k r : String)
    (h : (k, r) ∈ urlToLicenseid known) :
    ∃ L ∈ known, L.url = k ∧ L.id = r := by
  unfold urlToLicenseid at h
  rw [List.mem_map] at h
  obtain ⟨L, hL, hkr⟩ := h
  exact ⟨L, hL, congrArg Prod.fst hkr, congrArg Prod.snd hkr⟩

theorem endsWithSlash_append_slash (s : String) : endsWithSlash (s ++ "/") = true := by
  unfold endsWithSlash
  rw [String.data_append]
  rw [show ("/" : String).data = ['/'] from rfl]
  rw [List.getLast?_concat]
  simp

theorem normUrl_endsWithSlash (u : String) :
    endsWithSlash (if endsWithSlash u then u else u ++ "/") = true := by
  split
  · assumption
  · exact endsWithSlash_append_slash u

theorem normUrl_ne_empty (u : String) :
    (if endsWithSlash u then u else u ++ "/") ≠ "" := by
  intro h
  have hs := normUrl_endsWithSlash u
  rw [h] at hs
  exact absurd hs (by decide)

/-- C1 counterexample: resolving `{name: "CC-BY 4.0", url: ""}` against a
known-licenses list containing the title `CC-BY 4.0` raises KeyError
instead of succeeding by the title path: the empty url is normalized to
`/` before the emptiness test, so the url branch is taken (and its index
has no `/` key). -/
theorem findLicense_scenarioC_raises :
    findLicense "CC-BY 4.0" "" [ccbyLicense] = .error .keyError := rfl

/-- C1 amended: `_find_license` always resolves through the canonical-URL
index.  The url is normalized (trailing slash appended, the empty string
becoming `/`) before the `if license_url:` test, so the test always sees a
non-empty string and the title branch is unreachable: the result never
depends on `license_string`, a url-index hit is returned, a url-index miss
raises KeyError with no fallback to the title index, and the spec's
scenario C (`{name: "CC-BY 4.0", url: ""}` against a list containing that
title) raises KeyError. -/
theorem findLicense_urlOnly (s s' u : String) (known : List LicenseData) :
    (findLicense s u known = findLicense s' u known) ∧
    (∀ i, dictFind (urlToLicenseid known)
        (if endsWithSlash u then u else u ++ "/") = some i →
        findLicense s u known = .ok i) ∧
    (dictFind (urlToLicenseid known)
        (if endsWithSlash u then u else u ++ "/") = none →
        findLicense s u known = .error .keyError) ∧
    findLicense "CC-BY 4.0" "" [ccbyLicense] = .error .keyError := by
  have hne := normUrl_ne_empty u
  refine ⟨?_, ?_, ?_, rfl⟩
  · simp only [findLicense]
    rw [if_neg hne, if_neg hne]
  · intro i hi
    simp only [findLicense]
    rw [if_neg hne, hi]
  · intro hi
    simp only [findLicense]
    rw [if_neg hne, hi]

/-- Witness for the amended C1 theorem: a url-index hit resolves (with a
trailing slash appended), and a url-index miss raises KeyError. -/
theorem findLicense_urlOnly_witness :
    findLicense "A" "https://creativecommons.org/licenses/by/4.0" [ccbyLicense]
      = .ok "cc-by-40" ∧
    findLicense "A" "https://nope.example" [ccbyLicense] = .error .keyError :=
  ⟨(findLicense_urlOnly "A" "B" "https://creativecommons.org/licenses/by/4.0"
      [ccbyLicense]).2.1 "cc-by-40" rfl,
   (findLicense_urlOnly "A" "B" "https://nope.example" [ccbyLicense]).2.2.1 rfl⟩

/-- C8: the queried title is sanitized (strip, space to dash, upper-case)
but the title index holds catalog titles and legacy aliases verbatim, so a
title-index lookup succeeds only when the sanitized query equals a raw
title or legacy alias character for character; consequently a license
whose title contains a space or an ASCII lowercase letter, and whose
legacy aliases all do too, can never be resolved by any title query. -/
theorem titleLookupRequiresVerbatim (q : String) (known : List LicenseData)
    (L : LicenseData) (hL : L ∈ known)
    (htitle : ∃ c ∈ L.title.data, unsanitaryChar c)
    (hlegacy : ∀ g ∈ L.legacy_ids.getD [], ∃ c ∈ g.data, unsanitaryChar c)
    (huniq : ∀ L' ∈ known, L'.id = L.id → L' = L) :
    (∀ r, dictFind (stringToLicenseid known) (sanitizeLicense q) = some r →
       ∃ L' ∈ known, sanitizeLicense q = L'.title ∨
         sanitizeLicense q ∈ L'.legacy_ids.getD []) ∧
    dictFind (stringToLicenseid known) (sanitizeLicense q) ≠ some L.id := by
  constructor
  · intro r hr
    obtain ⟨L', hL', -, hk⟩ :=
      stringToLicenseid_mem known (sanitizeLicense q) r (dictFind_mem _ _ _ hr)
    exact ⟨L', hL', hk⟩
  · intro hr
    obtain ⟨L', hL', hid, hk⟩ :=
      stringToLicenseid_mem known (sanitizeLicense q) L.id (dictFind_mem _ _ _ hr)
    have hLL : L' = L := huniq L' hL' hid.symm
    subst hLL
    rcases hk with hk | hk
    · obtain ⟨c, hc, hbad⟩ := htitle
      rw [← hk] at hc
      exact sanitizeLicense_no_unsanitary q c hc hbad
    · obtain ⟨c, hc, hbad⟩ := hlegacy (sanitizeLicense q) hk
      exact sanitizeLicense_no_unsanitary q c hc hbad

/-- Witness for the C8 theorem: the license titled `CC-BY 4.0` (a space
and no aliases) can never be resolved by a title query, here the query
`CC-BY 4.0` itself. -/
theorem titleLookupRequiresVerbatim_witness :
    dictFind (stringToLicenseid [ccbyLicense]) (sanitizeLicense "CC-BY 4.0")
      ≠ some "cc-by-40" :=
  (titleLookupRequiresVerbatim "CC-BY 4.0" [ccbyLicense] ccbyLicense
    (by decide) (by decide) (by decide)
    (by intro L' hm _; simpa using hm)).2

/-- C9: every queried url is normalized to end with a slash while the url
index is keyed by the catalog urls verbatim, so a known license whose
canonical url lacks the trailing slash can never be matched by the url
branch: no query (not even that very url) ever resolves to it. -/
theorem urlWithoutSlashUnreachable (s u : String) (known : List LicenseData)
    (L : LicenseData) (hL : L ∈ known)
    (hslash : endsWithSlash L.url = false)
    (huniq : ∀ L' ∈ known, L'.id = L.id → L' = L) :
    findLicense s u known ≠ .ok L.id := by
  intro h
  simp only [findLicense] at h
  rw [if_neg (normUrl_ne_empty u)] at h
  cases hd : dictFind (urlToLicenseid known) (if endsWithSlash u then u else u ++ "/") with
  | none => rw [hd] at h; cases h
  | some r =>
    rw [hd] at h
    have hr : r = L.id := Except.ok.inj h
    obtain ⟨L', hL', hurl, hid⟩ := urlToLicenseid_mem known _ r (dictFind_mem _ _ _ hd)
    have hLL : L' = L := huniq L' hL' (hid.trans hr)
    subst hLL
    have hs := normUrl_endsWithSlash u
    rw [← hurl, hslash] at hs
    cases hs

/-- Witness for the C9 theorem: a catalog license whose url lacks the
trailing slash is not matched even by its own exact url. -/
theorem urlWithoutSlashUnreachable_witness :
    findLicense "T" "https://example.com/x"
      [⟨"idA", "TITLE", "https://example.com/x", none⟩] ≠ .ok "idA" :=
  urlWithoutSlashUnreachable "T" "https://example.com/x"
    [⟨"idA", "TITLE", "https://example.com/x", none⟩]
    ⟨"idA", "TITLE", "https://example.com/x", none⟩
    (by decide) (by decide) (by intro L' hm _; simpa using hm)

theorem processBlocks_of_lt (hs bs : List Nat) (h : bs.length < 64) :
    processBlocks hs bs = (hs, bs) := by
  rw [processBlocks]
  rw [dif_neg (by omega)]

theorem processBlocks_step (hs bs : List Nat) (h : 64 ≤ bs.length) :
    processBlocks hs bs = processBlocks (sha2Compress hs (bs.take 64)) (bs.drop 64) := by
  rw [processBlocks]
  rw [dif_pos h]

theorem processBlocks_append (b : List Nat) :
    ∀ (n : Nat) (a : List Nat), a.length ≤ n → ∀ hs : List Nat,
      processBlocks hs (a ++ b) =
        processBlocks (processBlocks hs a).1 ((processBlocks hs a).2 ++ b) := by
  intro n
  induction n with
  | zero =>
    intro a ha hs
    have hlt : a.length < 64 := by omega
    rw [processBlocks_of_lt hs a hlt]
  | succ n ih =>
    intro a ha hs
    by_cases h64 : 64 ≤ a.length
    · have htake : (a ++ b).take 64 = a.take 64 := by
        rw [List.take_append_eq_append_take, Nat.sub_eq_zero_of_le h64,
            List.take_zero, List.append_nil]
      have hdrop : (a ++ b).drop 64 = a.drop 64 ++ b := by
        rw [List.drop_append_eq_append_drop, Nat.sub_eq_zero_of_le h64, List.drop_zero]
      rw [processBlocks_step hs (a ++ b) (by rw [List.length_append]; omega)]
      rw [htake, hdrop]
      rw [processBlocks_step hs a h64]
      exact ih (a.drop 64) (by rw [List.length_drop]; omega)
        (sha2Compress hs (a.take 64))
    · rw [processBlocks_of_lt hs a (by omega)]

theorem processBlocks_snd_lt :
    ∀ (n : Nat) (bs : List Nat), bs.length ≤ n → ∀ hs : List Nat,
      (processBlocks hs bs).2.length < 64 := by
  intro n
  induction n with
  | zero =>
    intro bs hb hs
    rw [processBlocks_of_lt hs bs (by omega)]
    show bs.length < 64
    omega
  | succ n ih =>
    intro bs hb hs
    by_cases h64 : 64 ≤ bs.length
    · rw [processBlocks_step hs bs h64]
      exact ih (bs.drop 64) (by rw [List.length_drop]; omega) _
    · rw [processBlocks_of_lt hs bs (by omega)]
      show bs.length < 64
      omega

theorem sha256Update_append (st : Sha256State) (a b : List Nat) :
    sha256Update (sha256Update st a) b = sha256Update st (a ++ b) := by
  unfold sha256Update
  rw [show st.pending ++ (a ++ b) = (st.pending ++ a) ++ b from
    (List.append_assoc st.pending a b).symm]
  rw [processBlocks_append b (st.pending ++ a).length (st.pending ++ a) le_rfl st.hs]
  simp [List.length_append, Nat.add_assoc]

theorem foldl_sha256Update (cs : List (List Nat)) :
    ∀ st : Sha256State, st.pending.length < 64 →
      List.foldl sha256Update st cs = sha256Update st cs.flatten := by
  induction cs with
  | nil =>
    intro st hst
    show st = sha256Update st []
    unfold sha256Update
    rw [List.append_nil, processBlocks_of_lt st.hs st.pending hst]
    simp
  | cons c cs ih =>
    intro st hst
    simp only [List.foldl_cons, List.flatten_cons]
    rw [ih (sha256Update st c)
      (processBlocks_snd_lt (st.pending ++ c).length (st.pending ++ c) le_rfl st.hs)]
    exact sha256Update_append st c cs.flatten

theorem fileChunks_flatten :
    ∀ (n : Nat) (bs : List Nat), bs.length ≤ n → (fileChunks bs).flatten = bs := by
  intro n
  induction n with
  | zero =>
    intro bs hb
    have : bs = [] := List.length_eq_zero.mp (Nat.le_zero.mp hb)
    subst this
    rw [fileChunks]
    simp
  | succ n ih =>
    intro bs hb
    by_cases hnil : bs = []
    · subst hnil
      rw [fileChunks]
      simp
    · rw [fileChunks]
      rw [dif_neg hnil]
      rw [List.flatten_cons]
      rw [ih (bs.drop 65536)
        (by rw [List.length_drop]
            have : 0 < bs.length := List.length_pos.mpr hnil
            omega)]
      exact List.take_append_drop 65536 bs

/-- C7: Content Digest correctness of `_hash_file_sha256`: streaming the
file bytes through the SHA-256 accumulator in 64 KiB chunks yields the
same lowercase hex digest as hashing the entire byte content at once (in
particular the digest is a function of the bytes alone, so identical
bytes always give identical digests), and the empty file yields the
well-known SHA-256-of-empty-input digest. -/
theorem hashFileSha256_correct :
    (∀ file : List Nat, hashFileSha256 file = sha256Hex file) ∧
    hashFileSha256 [] =
      "e3b0c44298fc1c149afbf4c8996fb92427ae41e4649b934ca495991b7852b855" := by
  have hmain : ∀ file : List Nat, hashFileSha256 file = sha256Hex file := by
    intro file
    unfold hashFileSha256 sha256Hex
    rw [foldl_sha256Update (fileChunks file) sha256Init (by decide)]
    rw [fileChunks_flatten file.length file le_rfl]
  refine ⟨hmain, ?_⟩
  rw [hmain []]
  unfold sha256Hex sha256Update sha256Hexdigest
  rw [processBlocks_of_lt sha256Init.hs (sha256Init.pending ++ []) (by decide)]
  rw [processBlocks_step _ _ (by decide)]
  rw [processBlocks_of_lt _ _ (by decide)]
  decide
